import Mathlib

/-!
# Verification of the `EasyCerver` construct (`src/lib/easy-cerver.ts`)

This file is a shallow embedding of the `EasyCerver` CDK stack constructor.
The constructor is pure configuration: given a property bag it deterministically
wires a fixed set of cloud resources.  We model the property bag
(`EasyCerverProps`), the resources the constructor describes (task definitions,
containers, mount points, the renewal state machine, ingress rules, …) and the
constructor itself as a pure function `easyCerver` from the props (plus the
deploy-time token values CloudFormation would substitute) to a record of the
produced resource configurations.

The one piece of runtime behaviour — the bash poll loop in the `aws-cli`
startup-gate container — is embedded operationally as `pollUntilNotRunning`,
a fuel-indexed evaluator over an abstract stream of execution statuses.
-/

namespace EasyCerver

/-- `aws-cdk-lib.RemovalPolicy` (the variants relevant to EFS / LogGroup). -/
inductive RemovalPolicy
  | destroy
  | retain
  | snapshot
  deriving DecidableEq, Repr

/-- CloudFormation semantics of a removal policy: a resource is preserved on
stack removal exactly when its deletion policy is not `Delete` (= `destroy`). -/
def RemovalPolicy.preservedOnRemoval : RemovalPolicy → Bool
  | .destroy => false
  | .retain => true
  | .snapshot => true

/-- `ecs.Protocol`. -/
inductive Protocol
  | tcp
  | udp
  deriving DecidableEq, Repr

/-- `ecs.PortMapping` (fields used by the source). -/
structure PortMapping where
  hostPort : Nat
  containerPort : Nat
  protocol : Protocol
  deriving DecidableEq, Repr

/-- `ecs.MountPoint`. -/
structure MountPoint where
  sourceVolume : String
  containerPath : String
  readOnly : Bool
  deriving DecidableEq, Repr

/-- `ecs.ContainerDependencyCondition`. -/
inductive DependencyCondition
  | start
  | complete
  | success
  | healthy
  deriving DecidableEq, Repr

/-- An entry recorded by `addContainerDependencies`. -/
structure ContainerDependency where
  containerName : String
  condition : DependencyCondition
  deriving DecidableEq, Repr

/-- An ECS container definition, with the properties the source sets:
name, image, essentiality, memory reservation, entry point, command,
environment, port mappings, mount points and container dependencies. -/
structure ContainerDefinition where
  name : String
  image : String
  essential : Bool
  memoryReservationMiB : Nat
  entryPoint : List String
  command : List String
  environment : List (String × String)
  portMappings : List PortMapping
  mountPoints : List MountPoint
  dependencies : List ContainerDependency
  deriving DecidableEq, Repr

/-- An EFS volume attached to a task definition (`addVolume` with
`efsVolumeConfiguration`). -/
structure TaskVolume where
  name : String
  fileSystemId : String
  deriving DecidableEq, Repr

/-- `ecs.Ec2TaskDefinition`: the ordered list of containers added to it and
its volumes. -/
structure Ec2TaskDefinition where
  containers : List ContainerDefinition
  volumes : List TaskVolume
  deriving DecidableEq, Repr

/-- Index of the first essential container in an add-ordered container list.
CDK sets `TaskDefinition.defaultContainer` to the first essential container
added (and never changes it afterwards, since later essential additions find
it already set). -/
def firstEssentialIdx : List ContainerDefinition → Option Nat
  | [] => none
  | c :: cs => if c.essential then some 0 else (firstEssentialIdx cs).map (· + 1)

/-- Positional lookup in a list. -/
def nthOpt : List α → Nat → Option α
  | [], _ => none
  | x :: _, 0 => some x
  | _ :: xs, n + 1 => nthOpt xs n

/-- Apply `f` to the element at position `i`, if any. -/
def modifyIdx : List α → Nat → (α → α) → List α
  | [], _, _ => []
  | x :: xs, 0, f => f x :: xs
  | x :: xs, n + 1, f => x :: modifyIdx xs n f

/-- `TaskDefinition.defaultContainer` as a value. -/
def Ec2TaskDefinition.defaultContainer? (td : Ec2TaskDefinition) :
    Option ContainerDefinition :=
  (firstEssentialIdx td.containers).bind (nthOpt td.containers)

/-- `TaskDefinition.addContainer`: containers accumulate in add order. -/
def Ec2TaskDefinition.addContainer (td : Ec2TaskDefinition)
    (c : ContainerDefinition) : Ec2TaskDefinition :=
  { td with containers := td.containers ++ [c] }

/-- `TaskDefinition.addVolume`. -/
def Ec2TaskDefinition.addVolume (td : Ec2TaskDefinition) (v : TaskVolume) :
    Ec2TaskDefinition :=
  { td with volumes := td.volumes ++ [v] }

/-- `defaultContainer?.<mutate>` in the source: apply `f` to the default
container when it exists, otherwise do nothing (the optional-chaining no-op). -/
def Ec2TaskDefinition.modifyDefault (td : Ec2TaskDefinition)
    (f : ContainerDefinition → ContainerDefinition) : Ec2TaskDefinition :=
  match firstEssentialIdx td.containers with
  | none => td
  | some i => { td with containers := modifyIdx td.containers i f }

/-- `ContainerDefinition.addMountPoints` (single mount point). -/
def ContainerDefinition.addMountPoint (c : ContainerDefinition)
    (mp : MountPoint) : ContainerDefinition :=
  { c with mountPoints := c.mountPoints ++ [mp] }

/-- `ContainerDefinition.addContainerDependencies` (single dependency). -/
def ContainerDefinition.addDependency (c : ContainerDefinition)
    (d : ContainerDependency) : ContainerDefinition :=
  { c with dependencies := c.dependencies ++ [d] }

/-- `sfn.RetryProps` as filled in by `addRetry({ interval: Duration.seconds(20) })`:
CDK defaults supply `errors: ['States.ALL']`, `maxAttempts: 3`, `backoffRate: 2`. -/
structure RetryProps where
  errors : List String
  intervalSeconds : Nat
  maxAttempts : Nat
  backoffRate : Nat
  deriving DecidableEq, Repr

/-- A state in the chain attached as the catch handler: the
`SnsPublish` task (with its own retriers, none are added in the source) chained
via `.next` into the terminal `Fail` state. -/
inductive SfnNode
  | snsPublish (topicRef : String) (messageJsonPath : String)
      (retries : List RetryProps) (next : SfnNode)
  | fail (stateName : String)
  deriving DecidableEq, Repr

/-- No state in the chain carries a retry policy. -/
def SfnNode.noRetries : SfnNode → Bool
  | .snsPublish _ _ rs next => rs.isEmpty && next.noRetries
  | .fail _ => true

/-- The chain is a publish step directly followed by a terminal `Fail` state. -/
def SfnNode.isPublishThenFail : SfnNode → Bool
  | .snsPublish _ _ _ (.fail _) => true
  | _ => false

/-- `sfn.CatchProps` defaults: `errors: ['States.ALL']`. -/
structure CatchEntry where
  errors : List String
  handler : SfnNode
  deriving DecidableEq, Repr

/-- The `EcsRunTask` state `CreateCertificate` with its retry and catch
configuration. -/
structure EcsRunTaskState where
  runJobSync : Bool
  retries : List RetryProps
  catches : List CatchEntry
  deriving DecidableEq, Repr

/-- An ingress rule opened on the host auto-scaling group's connections. -/
inductive Peer
  | anyIpv4
  | anyIpv6
  deriving DecidableEq, Repr

/-- A `connections.allowFrom…(Port.tcp p)` rule. -/
structure IngressRule where
  peer : Peer
  tcpPort : Nat
  deriving DecidableEq, Repr

/-- The `cluster.addCapacity("HostInstanceCapacity", …)` configuration. -/
structure HostCapacity where
  instanceType : String
  spotPrice : Option String
  minCapacity : Nat
  maxCapacity : Nat
  deriving DecidableEq, Repr

/-- The EFS `FileSystem` resource (fields the source sets). -/
structure FileSystemRes where
  encrypted : Bool
  removalPolicy : RemovalPolicy
  deriving DecidableEq, Repr

/-- The default `LogGroup` resource created when `props.logGroup` is omitted. -/
structure LogGroupRes where
  retentionDays : Nat
  removalPolicy : RemovalPolicy
  deriving DecidableEq, Repr

/-- A `route53.ARecord`. -/
structure ARecordRes where
  recordName : String
  target : String
  deriving DecidableEq, Repr

/-- `EasyCerverProps`: the configuration surface of the construct.  Optional
references to externally constructed resources (`vpc`, `securityGroup`,
`logGroup`) are modelled by opaque identifier strings. -/
structure EasyCerverProps where
  hostedZoneDomain : String
  email : String
  recordDomainNames : Option (List String)
  vpc : Option String
  securityGroup : Option String
  hostInstanceType : Option String
  hostInstanceSpotPrice : Option String
  logGroup : Option String
  certbotDockerTag : Option String
  certbotScheduleInterval : Option Nat
  awsCliDockerTag : Option String
  removalPolicy : Option RemovalPolicy
  serverTaskDefinition : Option Ec2TaskDefinition
  deriving DecidableEq, Repr

/-- Deploy-time token values that CloudFormation substitutes into the
template: the stack region, the generated state-machine ARN, the EIP logical
reference and the EFS file-system id. -/
structure DeployTokens where
  region : String
  stateMachineArn : String
  eipRef : String
  fileSystemId : String
  deriving DecidableEq, Repr

/-- `records = props.recordDomainNames ?? [hostedZone.zoneName]`; the hosted
zone is looked up by `props.hostedZoneDomain`, so its `zoneName` is that
domain. -/
def resolvedRecords (p : EasyCerverProps) : List String :=
  p.recordDomainNames.getD [p.hostedZoneDomain]

/-- The `CertbotContainer` definition (image `certbot/dns-route53:<tag>`,
the `certonly` command built from the email and the resolved records;
`records[0]` is the head of the nonempty resolved list). -/
def certbotContainerDef (certbotTag email : String) (records : List String) :
    ContainerDefinition :=
  { name := "certbot"
    image := "certbot/dns-route53:" ++ certbotTag
    essential := true
    memoryReservationMiB := 64
    entryPoint := []
    command :=
      ["certonly", "--verbose", "--preferred-challenges=dns-01",
       "--dns-route53", "--dns-route53-propagation-seconds=300",
       "--non-interactive", "--agree-tos", "--expand",
       "-m", email, "--cert-name", records.headD ""] ++
      records.flatMap (fun domain => ["-d", domain])
    environment := []
    portMappings := []
    mountPoints := []
    dependencies := [] }

/-- The bash command of the `AWSCliContainer` (source lines 368-376):
configure the region and text output, start one execution of the renewal
state machine, then poll `describe-execution` every 10 seconds until the
status is no longer `RUNNING`. -/
def gateCommandText (region arn : String) : String :=
  "set -eux\n          aws configure set region " ++ region ++
  " && \\\n          aws configure set output text && \\\n          " ++
  "EXECUTION_ARN=$(aws stepfunctions start-execution --state-machine-arn " ++
  arn ++ " --query executionArn) && \\\n          " ++
  "until [ $(aws stepfunctions describe-execution --execution-arn \"$EXECUTION_ARN\" --query status) != RUNNING ];\n" ++
  "          do\n            echo \"Waiting for $EXECUTION_ARN\"\n            sleep 10\n          done"

/-- The `AWSCliContainer` startup-gate container definition. -/
def awsCliContainerDef (awsCliTag region arn : String) : ContainerDefinition :=
  { name := "aws-cli"
    image := "amazon/aws-cli:" ++ awsCliTag
    essential := false
    memoryReservationMiB := 64
    entryPoint := ["/bin/bash", "-c"]
    command := [gateCommandText region arn]
    environment := []
    portMappings := []
    mountPoints := []
    dependencies := [] }

/-- The `NginxContainer` of `sampleSeverTask`: one essential container with
the environment derived from the resolved records and the 80/443 TCP port
mapping pair added by `addPortMappings`. -/
def nginxContainerDef (records : List String) : ContainerDefinition :=
  { name := "nginx"
    image := "asset:../containers/nginx-proxy"
    essential := true
    memoryReservationMiB := 64
    entryPoint := []
    command := []
    environment :=
      [("SERVER_NAME", String.intercalate " " records),
       ("CERT_NAME", records.headD "")]
    portMappings :=
      [{ hostPort := 80, containerPort := 80, protocol := .tcp },
       { hostPort := 443, containerPort := 443, protocol := .tcp }]
    mountPoints := []
    dependencies := [] }

/-- `sampleSeverTask` (the source's spelling): the fallback server task
definition holding exactly the nginx container. -/
def sampleSeverTask (records : List String) : Ec2TaskDefinition :=
  { containers := [nginxContainerDef records], volumes := [] }

/-- The read-only mount of the certificate volume at the fixed path, added to
the served task's default container. -/
def certMountRO : MountPoint :=
  { sourceVolume := "certVolume", containerPath := "/etc/letsencrypt",
    readOnly := true }

/-- The read-write mount of the certificate volume at the fixed path, added to
the certbot container. -/
def certMountRW : MountPoint :=
  { sourceVolume := "certVolume", containerPath := "/etc/letsencrypt",
    readOnly := false }

/-- The dependency the served default container takes on the startup-gate
container: wait for `aws-cli` to COMPLETE (stop with any exit code). -/
def gateDependency : ContainerDependency :=
  { containerName := "aws-cli", condition := .complete }

/-- The certbot (issuance) task definition: add the certbot container, add the
EFS volume, then mount it read-write on the certbot container
(source lines 234-298). -/
def certbotTaskDef (certbotTag email : String) (records : List String)
    (fsId : String) : Ec2TaskDefinition :=
  let td := Ec2TaskDefinition.addContainer { containers := [], volumes := [] }
    (certbotContainerDef certbotTag email records)
  let td := td.addVolume { name := "certVolume", fileSystemId := fsId }
  { td with
      containers := modifyIdx td.containers 0
        (fun c => c.addMountPoint certMountRW) }

/-- The wiring applied to the served task definition (source lines 342-390):
add the EFS volume, mount it read-only on the default container, add the
`aws-cli` gate container, and make the default container depend on the gate's
completion. -/
def wireServerTask (base : Ec2TaskDefinition) (awsCliTag : String)
    (tok : DeployTokens) : Ec2TaskDefinition :=
  let td1 := base.addVolume
    { name := "certVolume", fileSystemId := tok.fileSystemId }
  let td2 := td1.modifyDefault (fun c => c.addMountPoint certMountRO)
  let td3 := td2.addContainer
    (awsCliContainerDef awsCliTag tok.region tok.stateMachineArn)
  td3.modifyDefault (fun c => c.addDependency gateDependency)

/-- Everything the `EasyCerver` constructor produces that the claims are
about. -/
structure EasyCerverStack where
  hostCapacity : HostCapacity
  addedSecurityGroups : List String
  ingressRules : List IngressRule
  certFileSystem : FileSystemRes
  aRecords : List ARecordRes
  createdLogGroup : Option LogGroupRes
  certbotTaskDefinition : Ec2TaskDefinition
  certbotRunTask : EcsRunTaskState
  scheduleRateDays : Nat
  serverTaskDefinition : Ec2TaskDefinition
  deriving DecidableEq, Repr

/-- Shallow embedding of the `EasyCerver` constructor body
(`src/lib/easy-cerver.ts`, lines 117-403). -/
def easyCerver (p : EasyCerverProps) (tok : DeployTokens) : EasyCerverStack :=
  let removal := p.removalPolicy.getD .destroy
  let awsCliTag := p.awsCliDockerTag.getD "latest"
  let certbotTag := p.certbotDockerTag.getD "v1.29.0"
  let records := resolvedRecords p
  let certbotTd := certbotTaskDef certbotTag p.email records tok.fileSystemId
  -- server task definition wiring (lines 340-390)
  let serverBase := p.serverTaskDefinition.getD (sampleSeverTask records)
  let serverTd := wireServerTask serverBase awsCliTag tok
  { hostCapacity :=
      { instanceType := p.hostInstanceType.getD "t2.micro"
        spotPrice := p.hostInstanceSpotPrice
        minCapacity := 1
        maxCapacity := 1 }
    addedSecurityGroups :=
      match p.securityGroup with
      | some sg => [sg]
      | none => []
    ingressRules :=
      match p.securityGroup with
      | some _ => []
      | none =>
        [{ peer := .anyIpv4, tcpPort := 80 }, { peer := .anyIpv4, tcpPort := 443 },
         { peer := .anyIpv6, tcpPort := 80 }, { peer := .anyIpv6, tcpPort := 443 }]
    certFileSystem := { encrypted := true, removalPolicy := removal }
    aRecords := records.map
      (fun record => { recordName := record, target := tok.eipRef })
    createdLogGroup :=
      match p.logGroup with
      | some _ => none
      | none => some { retentionDays := 731, removalPolicy := removal }
    certbotTaskDefinition := certbotTd
    certbotRunTask :=
      { runJobSync := true
        retries :=
          [{ errors := ["States.ALL"], intervalSeconds := 20,
             maxAttempts := 3, backoffRate := 2 }]
        catches :=
          [{ errors := ["States.ALL"]
             handler := .snsPublish "Topic" "$" [] (.fail "Fail") }] }
    scheduleRateDays := p.certbotScheduleInterval.getD 60
    serverTaskDefinition := serverTd }

/-- A status of a Step Functions execution, as observed by
`describe-execution`. -/
inductive ExecStatus
  | running
  | succeeded
  | failed
  | timedOut
  | aborted
  deriving DecidableEq, Repr

/-- Operational model of the gate's `until` loop: `statuses k` is the status
the k-th `describe-execution` call observes.  The loop checks the status and
exits as soon as it differs from `RUNNING`, otherwise sleeps and re-polls;
`fuel` bounds the number of polls we evaluate (the script itself has no such
bound).  Returns the poll index and the observed terminal status when the
loop exits within `fuel` polls. -/
def pollUntilNotRunning (statuses : Nat → ExecStatus) : Nat → Option (Nat × ExecStatus)
  | 0 => none
  | fuel + 1 =>
    if statuses 0 ≠ ExecStatus.running then
      some (0, statuses 0)
    else
      (pollUntilNotRunning (fun n => statuses (n + 1)) fuel).map
        (fun r => (r.1 + 1, r.2))

/-- Exit code of the gate script: when the poll loop terminates, every command
in the `set -eux` script has succeeded and bash exits 0 — independently of the
execution's terminal status. -/
def gateExit (statuses : Nat → ExecStatus) (fuel : Nat) : Option Nat :=
  (pollUntilNotRunning statuses fuel).map (fun _ => 0)

/-- Static facts of the gate script: it starts exactly one execution, sleeps a
fixed 10 seconds between polls, and loops while the observed status equals
`RUNNING`. -/
structure GateScript where
  startedExecutions : Nat
  sleepSeconds : Nat
  loopWhileStatus : ExecStatus
  deriving DecidableEq, Repr

/-- The `AWSCliContainer` script's static shape. -/
def awsCliGateScript : GateScript :=
  { startedExecutions := 1, sleepSeconds := 10, loopWhileStatus := .running }

/-- ECS container-dependency semantics: given the dependency's condition and
the exit code of the depended-on container (none while it has not stopped),
whether the dependency is satisfied.  `COMPLETE` requires only that the
container stopped, with any exit code; `SUCCESS` requires exit code 0. -/
def dependencySatisfied : DependencyCondition → Option Nat → Bool
  | .complete, some _ => true
  | .complete, none => false
  | .success, some code => code == 0
  | .success, none => false
  | .start, _ => true
  | .healthy, _ => true

/-- Validity of a configuration, reflecting CDK synth-time validation:
a supplied server task definition must contain an essential container
(`TaskDefinition` validation), and a supplied record-domain list must be
nonempty (certbot's `--cert-name records[0]`) and duplicate-free (construct
ids `ARecord${record}` must be unique). -/
def ValidProps (p : EasyCerverProps) : Prop :=
  (∀ td, p.serverTaskDefinition = some td →
    (firstEssentialIdx td.containers).isSome) ∧
  (∀ l, p.recordDomainNames = some l → l ≠ [] ∧ l.Nodup)

/-- A concrete default configuration: only the two required options are set. -/
def sampleProps : EasyCerverProps :=
  { hostedZoneDomain := "example.com"
    email := "admin@example.com"
    recordDomainNames := none
    vpc := none
    securityGroup := none
    hostInstanceType := none
    hostInstanceSpotPrice := none
    logGroup := none
    certbotDockerTag := none
    certbotScheduleInterval := none
    awsCliDockerTag := none
    removalPolicy := none
    serverTaskDefinition := none }

/-- The default configuration with a non-default removal policy. -/
def retainProps : EasyCerverProps :=
  { sampleProps with removalPolicy := some .retain }

/-- The default configuration with a custom security group supplied. -/
def sgProps : EasyCerverProps :=
  { sampleProps with securityGroup := some "sg-custom" }

/-- Concrete deploy-time token values. -/
def sampleTokens : DeployTokens :=
  { region := "us-east-1"
    stateMachineArn := "arn:aws:states:sm"
    eipRef := "EIP"
    fileSystemId := "fs-0" }

/-! ## List helper lemmas -/

theorem modifyIdx_length (l : List α) (i : Nat) (f : α → α) :
    (modifyIdx l i f).length = l.length := by
  induction l generalizing i with
  | nil => rfl
  | cons x xs ih => cases i <;> simp [modifyIdx, ih]

theorem nthOpt_modifyIdx (l : List α) (i : Nat) (f : α → α) :
    nthOpt (modifyIdx l i f) i = (nthOpt l i).map f := by
  induction l generalizing i with
  | nil => rfl
  | cons x xs ih => cases i <;> simp [modifyIdx, nthOpt, ih]

theorem nthOpt_append_lt (l l₂ : List α) (i : Nat) (h : i < l.length) :
    nthOpt (l ++ l₂) i = nthOpt l i := by
  induction l generalizing i with
  | nil => simp at h
  | cons x xs ih =>
    cases i with
    | zero => rfl
    | succ n => simpa [nthOpt] using ih n (by simpa using h)

theorem nthOpt_isSome_of_lt (l : List α) (i : Nat) (h : i < l.length) :
    ∃ a, nthOpt l i = some a := by
  induction l generalizing i with
  | nil => simp at h
  | cons x xs ih =>
    cases i with
    | zero => exact ⟨x, rfl⟩
    | succ n => exact ih n (by simpa using h)

theorem firstEssentialIdx_lt (l : List ContainerDefinition) (i : Nat)
    (h : firstEssentialIdx l = some i) : i < l.length := by
  induction l generalizing i with
  | nil => cases h
  | cons x xs ih =>
    by_cases hx : x.essential
    · simp [firstEssentialIdx, hx] at h
      simp [List.length_cons]
      omega
    · simp [firstEssentialIdx, hx] at h
      obtain ⟨j, hj, rfl⟩ := h
      have := ih j hj
      simpa using Nat.succ_lt_succ this

theorem firstEssentialIdx_append_nonessential (l : List ContainerDefinition)
    (c : ContainerDefinition) (hc : c.essential = false) :
    firstEssentialIdx (l ++ [c]) = firstEssentialIdx l := by
  induction l with
  | nil => simp [firstEssentialIdx, hc]
  | cons x xs ih => simp [firstEssentialIdx, ih]

theorem firstEssentialIdx_modifyIdx (l : List ContainerDefinition) (i : Nat)
    (f : ContainerDefinition → ContainerDefinition)
    (hf : ∀ c, (f c).essential = c.essential) :
    firstEssentialIdx (modifyIdx l i f) = firstEssentialIdx l := by
  induction l generalizing i with
  | nil => rfl
  | cons x xs ih =>
    cases i with
    | zero => simp [modifyIdx, firstEssentialIdx, hf]
    | succ n => simp [modifyIdx, firstEssentialIdx, ih]

/-! ## The served task definition after wiring -/

theorem wireServerTask_containers (base : Ec2TaskDefinition) (t : String)
    (tok : DeployTokens) (i : Nat)
    (hi : firstEssentialIdx base.containers = some i) :
    (wireServerTask base t tok).containers =
      modifyIdx
        (modifyIdx base.containers i (fun c => c.addMountPoint certMountRO) ++
          [awsCliContainerDef t tok.region tok.stateMachineArn])
        i (fun c => c.addDependency gateDependency) := by
  have hmp : ∀ c : ContainerDefinition,
      (c.addMountPoint certMountRO).essential = c.essential := fun _ => rfl
  have h2 : firstEssentialIdx
      (modifyIdx base.containers i (fun c => c.addMountPoint certMountRO)) =
      some i := by
    rw [firstEssentialIdx_modifyIdx _ _ _ hmp, hi]
  have h3 : firstEssentialIdx
      (modifyIdx base.containers i (fun c => c.addMountPoint certMountRO) ++
        [awsCliContainerDef t tok.region tok.stateMachineArn]) = some i := by
    rw [firstEssentialIdx_append_nonessential _ _ rfl, h2]
  simp only [wireServerTask, Ec2TaskDefinition.addVolume,
    Ec2TaskDefinition.modifyDefault, Ec2TaskDefinition.addContainer, hi, h3]

theorem wireServerTask_defaultContainer (base : Ec2TaskDefinition) (t : String)
    (tok : DeployTokens) (i : Nat)
    (hi : firstEssentialIdx base.containers = some i) :
    (wireServerTask base t tok).defaultContainer? =
      (nthOpt base.containers i).map
        (fun c => (c.addMountPoint certMountRO).addDependency gateDependency) := by
  have hmp : ∀ c : ContainerDefinition,
      (c.addMountPoint certMountRO).essential = c.essential := fun _ => rfl
  have hdep : ∀ c : ContainerDefinition,
      (c.addDependency gateDependency).essential = c.essential := fun _ => rfl
  have hlen : i < base.containers.length := firstEssentialIdx_lt _ _ hi
  have hcont := wireServerTask_containers base t tok i hi
  have h2 : firstEssentialIdx
      (modifyIdx base.containers i (fun c => c.addMountPoint certMountRO)) =
      some i := by
    rw [firstEssentialIdx_modifyIdx _ _ _ hmp, hi]
  have h3 : firstEssentialIdx
      (modifyIdx base.containers i (fun c => c.addMountPoint certMountRO) ++
        [awsCliContainerDef t tok.region tok.stateMachineArn]) = some i := by
    rw [firstEssentialIdx_append_nonessential _ _ rfl, h2]
  have h4 : firstEssentialIdx (wireServerTask base t tok).containers = some i := by
    rw [hcont, firstEssentialIdx_modifyIdx _ _ _ hdep, h3]
  rw [Ec2TaskDefinition.defaultContainer?, h4, Option.some_bind, hcont,
    nthOpt_modifyIdx,
    nthOpt_append_lt _ _ _ (by rw [modifyIdx_length]; exact hlen),
    nthOpt_modifyIdx, Option.map_map]
  rfl

/-! ## Termination behaviour of the gate's poll loop -/

theorem poll_succ_eq (statuses : Nat → ExecStatus) (fuel : Nat) :
    pollUntilNotRunning statuses (fuel + 1) =
      if statuses 0 ≠ ExecStatus.running then some (0, statuses 0)
      else (pollUntilNotRunning (fun n => statuses (n + 1)) fuel).map
        (fun r => (r.1 + 1, r.2)) := rfl

theorem poll_terminates (statuses : Nat → ExecStatus) (n : Nat)
    (hn : statuses n ≠ .running) :
    ∃ k, k ≤ n ∧ statuses k ≠ .running ∧
      pollUntilNotRunning statuses (n + 1) = some (k, statuses k) := by
  induction n generalizing statuses with
  | zero =>
    exact ⟨0, Nat.le_refl 0, hn, by simp [pollUntilNotRunning, hn]⟩
  | succ m ih =>
    by_cases h0 : statuses 0 = ExecStatus.running
    · obtain ⟨k, hk, hks, hkp⟩ := ih (fun j => statuses (j + 1)) hn
      refine ⟨k + 1, Nat.succ_le_succ hk, hks, ?_⟩
      rw [poll_succ_eq]
      simp only [h0, ne_eq, not_true_eq_false, if_false]
      rw [hkp]
      rfl
    · exact ⟨0, Nat.zero_le _, h0, by simp [pollUntilNotRunning, h0]⟩

theorem poll_some_spec (statuses : Nat → ExecStatus) (fuel k : Nat)
    (s : ExecStatus) (h : pollUntilNotRunning statuses fuel = some (k, s)) :
    s = statuses k ∧ s ≠ .running ∧ ∀ j < k, statuses j = .running := by
  induction fuel generalizing statuses k with
  | zero => cases h
  | succ m ih =>
    by_cases h0 : statuses 0 = ExecStatus.running
    · simp only [pollUntilNotRunning, h0, ne_eq, not_true_eq_false, if_false,
        Option.map_eq_some'] at h
      obtain ⟨⟨k', s'⟩, hp, heq⟩ := h
      obtain ⟨rfl, rfl⟩ : k' + 1 = k ∧ s' = s := by
        constructor <;> [exact congrArg Prod.fst heq; exact congrArg Prod.snd heq]
      obtain ⟨hs, hns, hall⟩ := ih (fun j => statuses (j + 1)) k' hp
      refine ⟨hs, hns, ?_⟩
      intro j hj
      cases j with
      | zero => exact h0
      | succ j' => exact hall j' (by omega)
    · simp only [pollUntilNotRunning, h0, ne_eq, not_false_eq_true, if_true,
        Option.some_inj] at h
      obtain ⟨rfl, rfl⟩ : 0 = k ∧ statuses 0 = s := by
        constructor <;> [exact congrArg Prod.fst h; exact congrArg Prod.snd h]
      exact ⟨rfl, h0, by omega⟩

theorem poll_never_terminates (statuses : Nat → ExecStatus)
    (h : ∀ k, statuses k = .running) (fuel : Nat) :
    pollUntilNotRunning statuses fuel = none := by
  induction fuel generalizing statuses with
  | zero => rfl
  | succ m ih =>
    simp [pollUntilNotRunning, h 0, ih (fun j => statuses (j + 1)) (fun j => h (j + 1))]

/-! ## Projections of the synthesized stack -/

theorem easyCerver_serverTaskDefinition (p : EasyCerverProps)
    (tok : DeployTokens) :
    (easyCerver p tok).serverTaskDefinition =
      wireServerTask (p.serverTaskDefinition.getD (sampleSeverTask (resolvedRecords p)))
        (p.awsCliDockerTag.getD "latest") tok := rfl

theorem easyCerver_certbotTaskDefinition (p : EasyCerverProps)
    (tok : DeployTokens) :
    (easyCerver p tok).certbotTaskDefinition =
      certbotTaskDef (p.certbotDockerTag.getD "v1.29.0") p.email
        (resolvedRecords p) tok.fileSystemId := rfl

theorem modifyDefault_volumes (td : Ec2TaskDefinition)
    (f : ContainerDefinition → ContainerDefinition) :
    (td.modifyDefault f).volumes = td.volumes := by
  unfold Ec2TaskDefinition.modifyDefault
  split <;> rfl

theorem wireServerTask_volumes (base : Ec2TaskDefinition) (t : String)
    (tok : DeployTokens) :
    (wireServerTask base t tok).volumes =
      base.volumes ++ [{ name := "certVolume", fileSystemId := tok.fileSystemId }] := by
  simp [wireServerTask, Ec2TaskDefinition.addContainer,
    Ec2TaskDefinition.addVolume, modifyDefault_volumes]

theorem wireServer_default_exists (base : Ec2TaskDefinition) (t : String)
    (tok : DeployTokens) (h : (firstEssentialIdx base.containers).isSome) :
    ∃ c₀ : ContainerDefinition, (wireServerTask base t tok).defaultContainer? =
      some ((c₀.addMountPoint certMountRO).addDependency gateDependency) := by
  obtain ⟨i, hi⟩ := Option.isSome_iff_exists.mp h
  obtain ⟨c₀, hc⟩ := nthOpt_isSome_of_lt _ _ (firstEssentialIdx_lt _ _ hi)
  refine ⟨c₀, ?_⟩
  rw [wireServerTask_defaultContainer _ _ _ _ hi, hc]
  rfl

theorem base_default_isSome (p : EasyCerverProps) (hv : ValidProps p) :
    (firstEssentialIdx
      (p.serverTaskDefinition.getD (sampleSeverTask (resolvedRecords p))).containers).isSome := by
  cases htd : p.serverTaskDefinition with
  | none => rfl
  | some td => simpa [htd] using hv.1 td htd

theorem served_default_exists (p : EasyCerverProps) (tok : DeployTokens)
    (hv : ValidProps p) :
    ∃ c₀ : ContainerDefinition,
      (easyCerver p tok).serverTaskDefinition.defaultContainer? =
        some ((c₀.addMountPoint certMountRO).addDependency gateDependency) := by
  rw [easyCerver_serverTaskDefinition]
  exact wireServer_default_exists _ _ _ (base_default_isSome p hv)

theorem sampleProps_valid : ValidProps sampleProps :=
  ⟨fun _ h => (nomatch h), fun _ h => (nomatch h)⟩

theorem easyCerver_createdLogGroup (p : EasyCerverProps) (tok : DeployTokens) :
    (easyCerver p tok).createdLogGroup =
      match p.logGroup with
      | some _ => none
      | none => some { retentionDays := 731,
                       removalPolicy := p.removalPolicy.getD .destroy } := rfl

theorem easyCerver_addedSecurityGroups (p : EasyCerverProps)
    (tok : DeployTokens) :
    (easyCerver p tok).addedSecurityGroups =
      match p.securityGroup with
      | some sg => [sg]
      | none => [] := rfl

theorem easyCerver_ingressRules (p : EasyCerverProps) (tok : DeployTokens) :
    (easyCerver p tok).ingressRules =
      match p.securityGroup with
      | some _ => []
      | none =>
        [{ peer := .anyIpv4, tcpPort := 80 }, { peer := .anyIpv4, tcpPort := 443 },
         { peer := .anyIpv6, tcpPort := 80 }, { peer := .anyIpv6, tcpPort := 443 }] := rfl

/-! ## The claims -/

/-- C1: before the served container starts, the aws-cli gate container starts
one execution of the renewal state machine, polls its status until it is no
longer RUNNING, and exits 0 regardless of the terminal status; the default
container's dependency on the gate is COMPLETE (satisfied by any exit code),
so a certificate-issuance failure does not prevent the served container from
starting. -/
theorem claim1_startup_gate (p : EasyCerverProps) (tok : DeployTokens)
    (hv : ValidProps p) (statuses : Nat → ExecStatus) (n : Nat)
    (hn : statuses n ≠ ExecStatus.running) :
    awsCliGateScript.startedExecutions = 1 ∧
    (∃ k, k ≤ n ∧ statuses k ≠ ExecStatus.running ∧
      pollUntilNotRunning statuses (n + 1) = some (k, statuses k)) ∧
    gateExit statuses (n + 1) = some 0 ∧
    (∃ c : ContainerDefinition,
      (easyCerver p tok).serverTaskDefinition.defaultContainer? = some c ∧
      gateDependency ∈ c.dependencies) ∧
    gateDependency.condition = DependencyCondition.complete ∧
    (∀ code : Nat,
      dependencySatisfied DependencyCondition.complete (some code) = true) := by
  obtain ⟨k, hk, hks, hkp⟩ := poll_terminates statuses n hn
  refine ⟨rfl, ⟨k, hk, hks, hkp⟩, ?_, ?_, rfl, fun code => rfl⟩
  · rw [gateExit, hkp]
    rfl
  · obtain ⟨c₀, hc⟩ := served_default_exists p tok hv
    refine ⟨_, hc, ?_⟩
    simp [ContainerDefinition.addDependency, ContainerDefinition.addMountPoint]

/-- C1 witness: at the default configuration, a workflow that has FAILED at the
first poll makes the gate exit 0, and a COMPLETE dependency is satisfied. -/
theorem claim1_startup_gate_witness :
    gateExit (fun _ => ExecStatus.failed) 1 = some 0 ∧
    dependencySatisfied DependencyCondition.complete (some 0) = true :=
  ⟨(claim1_startup_gate sampleProps sampleTokens sampleProps_valid
      (fun _ => ExecStatus.failed) 0 (by decide)).2.2.1,
   (claim1_startup_gate sampleProps sampleTokens sampleProps_valid
      (fun _ => ExecStatus.failed) 0 (by decide)).2.2.2.2.2 0⟩

/-- C2: the served task's default container gets a read-only mount of the
certificate volume at `/etc/letsencrypt`, and the certbot task's single
container gets a read-write mount of the same EFS volume at the same path. -/
theorem claim2_cert_mounts (p : EasyCerverProps) (tok : DeployTokens)
    (hv : ValidProps p) :
    (∃ c : ContainerDefinition,
      (easyCerver p tok).serverTaskDefinition.defaultContainer? = some c ∧
      certMountRO ∈ c.mountPoints) ∧
    (∃ c : ContainerDefinition,
      (easyCerver p tok).certbotTaskDefinition.containers = [c] ∧
      c.name = "certbot" ∧ c.mountPoints = [certMountRW]) ∧
    ({ name := "certVolume", fileSystemId := tok.fileSystemId } : TaskVolume) ∈
      (easyCerver p tok).serverTaskDefinition.volumes ∧
    (easyCerver p tok).certbotTaskDefinition.volumes =
      [{ name := "certVolume", fileSystemId := tok.fileSystemId }] ∧
    certMountRO.containerPath = "/etc/letsencrypt" ∧
    certMountRO.readOnly = true ∧
    certMountRW.containerPath = "/etc/letsencrypt" ∧
    certMountRW.readOnly = false := by
  refine ⟨?_, ⟨_, rfl, rfl, rfl⟩, ?_, rfl, rfl, rfl, rfl, rfl⟩
  · obtain ⟨c₀, hc⟩ := served_default_exists p tok hv
    refine ⟨_, hc, ?_⟩
    simp [ContainerDefinition.addDependency, ContainerDefinition.addMountPoint]
  · rw [easyCerver_serverTaskDefinition, wireServerTask_volumes]
    simp

/-- C2 witness: the mounts exist at the default configuration. -/
theorem claim2_cert_mounts_witness :
    ∃ c : ContainerDefinition,
      (easyCerver sampleProps sampleTokens).serverTaskDefinition.defaultContainer?
        = some c ∧ certMountRO ∈ c.mountPoints :=
  (claim2_cert_mounts sampleProps sampleTokens sampleProps_valid).1

/-- C3: the host auto-scaling capacity is created with
`minCapacity = 1` and `maxCapacity = 1` for every configuration. -/
theorem claim3_single_host (p : EasyCerverProps) (tok : DeployTokens) :
    (easyCerver p tok).hostCapacity.minCapacity = 1 ∧
    (easyCerver p tok).hostCapacity.maxCapacity = 1 :=
  ⟨rfl, rfl⟩

/-- C4: the catch handler of the issuance run task is exactly an SNS publish
of the triggering input (json path `$`) chained into the terminal `Fail`
state, and no state of the catch chain carries a retry policy. -/
theorem claim4_catch_branch (p : EasyCerverProps) (tok : DeployTokens) :
    (easyCerver p tok).certbotRunTask.catches =
      [{ errors := ["States.ALL"]
         handler := SfnNode.snsPublish "Topic" "$" [] (SfnNode.fail "Fail") }] ∧
    (SfnNode.snsPublish "Topic" "$" [] (SfnNode.fail "Fail")).noRetries = true ∧
    (SfnNode.snsPublish "Topic" "$" [] (SfnNode.fail "Fail")).isPublishThenFail
      = true :=
  ⟨rfl, rfl, rfl⟩

/-- C5: the gate's poll loop has no timeout — it returns nothing at every
fuel bound when the status stays RUNNING, it terminates exactly at the first
poll whose status differs from RUNNING, and the sleep between polls is the
fixed 10 seconds. -/
theorem claim5_unbounded_poll (statuses : Nat → ExecStatus) (fuel : Nat) :
    ((∀ k, statuses k = ExecStatus.running) →
      pollUntilNotRunning statuses fuel = none) ∧
    (∀ k s, pollUntilNotRunning statuses fuel = some (k, s) →
      s = statuses k ∧ s ≠ ExecStatus.running ∧
      ∀ j < k, statuses j = ExecStatus.running) ∧
    awsCliGateScript.sleepSeconds = 10 ∧
    awsCliGateScript.loopWhileStatus = ExecStatus.running :=
  ⟨fun h => poll_never_terminates statuses h fuel,
   fun k s h => poll_some_spec statuses fuel k s h, rfl, rfl⟩

/-- C5 witness: with an always-RUNNING status stream the loop does not
terminate within 5 polls, and the configured sleep is 10 seconds. -/
theorem claim5_unbounded_poll_witness :
    pollUntilNotRunning (fun _ => ExecStatus.running) 5 = none ∧
    awsCliGateScript.sleepSeconds = 10 :=
  ⟨(claim5_unbounded_poll (fun _ => ExecStatus.running) 5).1 (fun _ => rfl),
   (claim5_unbounded_poll (fun _ => ExecStatus.running) 5).2.2.1⟩

/-- C6: exactly one A record targeting the elastic IP is created per entry of
the resolved domain list, which defaults to the one-element list holding the
hosted zone's name. -/
theorem claim6_arecords (p : EasyCerverProps) (tok : DeployTokens)
    (hv : ValidProps p) :
    (easyCerver p tok).aRecords = (resolvedRecords p).map
      (fun r => { recordName := r, target := tok.eipRef }) ∧
    ((easyCerver p tok).aRecords.map ARecordRes.recordName) =
      resolvedRecords p ∧
    (p.recordDomainNames = none →
      resolvedRecords p = [p.hostedZoneDomain]) ∧
    ((easyCerver p tok).aRecords.map ARecordRes.recordName).Nodup := by
  have hmap : ((easyCerver p tok).aRecords.map ARecordRes.recordName) =
      resolvedRecords p := by
    show (((resolvedRecords p).map
      (fun r => ({ recordName := r, target := tok.eipRef } : ARecordRes))).map
        ARecordRes.recordName) = resolvedRecords p
    rw [List.map_map]
    exact List.map_id _
  refine ⟨rfl, hmap, fun h => by simp [resolvedRecords, h], ?_⟩
  rw [hmap]
  cases hr : p.recordDomainNames with
  | none => simp [resolvedRecords, hr]
  | some l => simpa [resolvedRecords, hr] using (hv.2 l hr).2

/-- C6 witness: the default configuration yields exactly the one record for
the zone name, targeting the elastic IP. -/
theorem claim6_arecords_witness :
    (easyCerver sampleProps sampleTokens).aRecords =
      [{ recordName := "example.com", target := "EIP" }] := by
  rw [(claim6_arecords sampleProps sampleTokens sampleProps_valid).1]
  rfl

/-- C7: the issuance run task's retry policy is fixed: interval 20 seconds and
the bounded default of 3 attempts, for every configuration. -/
theorem claim7_retry_interval (p : EasyCerverProps) (tok : DeployTokens) :
    (easyCerver p tok).certbotRunTask.retries =
      [{ errors := ["States.ALL"], intervalSeconds := 20,
         maxAttempts := 3, backoffRate := 2 }] :=
  rfl

/-- C8: when the server task definition option is omitted, the generated
sample task has exactly one container whose port mappings are exactly the
80/80 and 443/443 TCP pair and whose environment is derived from the resolved
domain list, and the stack's served task is wired from that sample task. -/
theorem claim8_sample_task (p : EasyCerverProps) (tok : DeployTokens)
    (h : p.serverTaskDefinition = none) (hr : resolvedRecords p ≠ []) :
    (sampleSeverTask (resolvedRecords p)).containers.length = 1 ∧
    (∃ c : ContainerDefinition,
      (sampleSeverTask (resolvedRecords p)).containers = [c] ∧
      c.portMappings =
        [{ hostPort := 80, containerPort := 80, protocol := Protocol.tcp },
         { hostPort := 443, containerPort := 443, protocol := Protocol.tcp }] ∧
      c.environment =
        [("SERVER_NAME", String.intercalate " " (resolvedRecords p)),
         ("CERT_NAME", (resolvedRecords p).headD "")] ∧
      (resolvedRecords p).headD "" ∈ resolvedRecords p) ∧
    (easyCerver p tok).serverTaskDefinition =
      wireServerTask (sampleSeverTask (resolvedRecords p))
        (p.awsCliDockerTag.getD "latest") tok := by
  refine ⟨rfl, ⟨nginxContainerDef (resolvedRecords p), rfl, rfl, rfl, ?_⟩, ?_⟩
  · cases hl : resolvedRecords p with
    | nil => exact absurd hl hr
    | cons a as => simp
  · rw [easyCerver_serverTaskDefinition, h]
    rfl

/-- C8 witness: at the default configuration the sample task has one container
and the zone name is in the resolved list. -/
theorem claim8_sample_task_witness :
    (sampleSeverTask (resolvedRecords sampleProps)).containers.length = 1 ∧
    ("example.com" : String) ∈ resolvedRecords sampleProps := by
  have h := claim8_sample_task sampleProps sampleTokens rfl (by decide)
  refine ⟨h.1, ?_⟩
  obtain ⟨c, _, _, _, hm⟩ := h.2.1
  revert hm
  decide

/-- C9: the certificate filesystem always carries the configured removal
policy (default destroy), the default log group — created exactly when no log
group is supplied — carries the same policy, the default means both are
destroyed on stack removal, and any non-default policy preserves the
filesystem. -/
theorem claim9_removal_policy (p : EasyCerverProps) (tok : DeployTokens) :
    (easyCerver p tok).certFileSystem.removalPolicy =
      p.removalPolicy.getD .destroy ∧
    (∀ lg, (easyCerver p tok).createdLogGroup = some lg →
      lg.removalPolicy = p.removalPolicy.getD .destroy) ∧
    (p.logGroup = none →
      ∃ lg, (easyCerver p tok).createdLogGroup = some lg) ∧
    ((p.removalPolicy = none ∨ p.removalPolicy = some .destroy) →
      ((easyCerver p tok).certFileSystem.removalPolicy).preservedOnRemoval
        = false) ∧
    (∀ rp, p.removalPolicy = some rp → rp ≠ RemovalPolicy.destroy →
      (easyCerver p tok).certFileSystem.removalPolicy = rp ∧
      ((easyCerver p tok).certFileSystem.removalPolicy).preservedOnRemoval
        = true) := by
  have hfs : (easyCerver p tok).certFileSystem.removalPolicy =
      p.removalPolicy.getD .destroy := rfl
  refine ⟨hfs, ?_, ?_, ?_, ?_⟩
  · intro lg hlg
    rw [easyCerver_createdLogGroup] at hlg
    cases hl : p.logGroup with
    | none =>
      rw [hl] at hlg
      simp only [Option.some_inj] at hlg
      rw [← hlg]
    | some s =>
      rw [hl] at hlg
      cases hlg
  · intro h
    rw [easyCerver_createdLogGroup, h]
    exact ⟨_, rfl⟩
  · intro h
    rw [hfs]
    rcases h with h | h <;> rw [h] <;> rfl
  · intro rp hrp hne
    rw [hfs, hrp]
    refine ⟨rfl, ?_⟩
    cases rp with
    | destroy => exact absurd rfl hne
    | retain => rfl
    | snapshot => rfl

/-- C9 witness: the default configuration destroys both resources on removal;
a retain policy is applied to the filesystem and preserves it. -/
theorem claim9_removal_policy_witness :
    (easyCerver sampleProps sampleTokens).certFileSystem.removalPolicy =
      RemovalPolicy.destroy ∧
    ((easyCerver sampleProps sampleTokens).certFileSystem.removalPolicy).preservedOnRemoval = false ∧
    (easyCerver retainProps sampleTokens).certFileSystem.removalPolicy =
      RemovalPolicy.retain ∧
    ((easyCerver retainProps sampleTokens).certFileSystem.removalPolicy).preservedOnRemoval = true :=
  ⟨(claim9_removal_policy sampleProps sampleTokens).1,
   (claim9_removal_policy sampleProps sampleTokens).2.2.2.1 (Or.inl rfl),
   ((claim9_removal_policy retainProps sampleTokens).2.2.2.2
      RemovalPolicy.retain rfl (by decide)).1,
   ((claim9_removal_policy retainProps sampleTokens).2.2.2.2
      RemovalPolicy.retain rfl (by decide)).2⟩

/-- C10: supplying a security group adds exactly that group and creates no
ingress rules; the 80/443 any-IPv4/any-IPv6 TCP ingress rules are created
exactly when the option is omitted. -/
theorem claim10_security_group (p : EasyCerverProps) (tok : DeployTokens) :
    (∀ sg, p.securityGroup = some sg →
      (easyCerver p tok).addedSecurityGroups = [sg] ∧
      (easyCerver p tok).ingressRules = []) ∧
    (p.securityGroup = none →
      (easyCerver p tok).addedSecurityGroups = [] ∧
      (easyCerver p tok).ingressRules =
        [{ peer := .anyIpv4, tcpPort := 80 }, { peer := .anyIpv4, tcpPort := 443 },
         { peer := .anyIpv6, tcpPort := 80 }, { peer := .anyIpv6, tcpPort := 443 }]) ∧
    ((easyCerver p tok).ingressRules ≠ [] ↔ p.securityGroup = none) := by
  refine ⟨?_, ?_, ?_⟩
  · intro sg hsg
    rw [easyCerver_addedSecurityGroups, easyCerver_ingressRules, hsg]
    exact ⟨rfl, rfl⟩
  · intro hsg
    rw [easyCerver_addedSecurityGroups, easyCerver_ingressRules, hsg]
    exact ⟨rfl, rfl⟩
  · rw [easyCerver_ingressRules]
    cases hsg : p.securityGroup with
    | none => simp
    | some sg => simp

/-- C10 witness: a custom group suppresses ingress rules; the default
configuration creates them. -/
theorem claim10_security_group_witness :
    (easyCerver sgProps sampleTokens).addedSecurityGroups = ["sg-custom"] ∧
    (easyCerver sgProps sampleTokens).ingressRules = [] ∧
    (easyCerver sampleProps sampleTokens).ingressRules ≠ [] :=
  ⟨((claim10_security_group sgProps sampleTokens).1 "sg-custom" rfl).1,
   ((claim10_security_group sgProps sampleTokens).1 "sg-custom" rfl).2,
   (claim10_security_group sampleProps sampleTokens).2.2.mpr rfl⟩

end EasyCerver
